import Mathlib

/-!
Verification of the optical scene model and view-interaction model of the
BPhO computational-challenge vision simulator.

The JavaScript sources are embedded shallowly over the rationals: every
arithmetic expression of the source is translated literally, with JS
division by a nonzero value becoming rational division and results that JS
represents as Infinity (or an absent record field) represented by an
explicit Option, with none for the non-finite / absent case.  All inputs
modelled here are finite JS numbers; numeric literals such as 1e-9 become
the exact rationals they denote.
-/

namespace VisionSim

/-- Result record of calculateThinLensImage as defined in the legacy
renderer (src/unnamed/part_001, lines 269-285).  The field v_m is none when
the JS code sets v_m = Infinity; mag and h_img_m are none when the JS value
is non-finite (Infinity times a finite number, or 0 times Infinity). -/
structure LensResult where
  v_m : Option ℚ
  h_img_m : Option ℚ
  mag : Option ℚ
  deriving Repr, DecidableEq

/-- Shallow embedding of calculateThinLensImage from src/unnamed/part_001
(lines 269-285), for finite input u_m.  Branches mirror the source: a power
below 1e-9 passes the object through; distances over 1e9 are treated as
vergence 0; an object within 1e-9 of the lens images at the lens; a power
within 1e-9 of the object vergence sends the image to infinity; the
magnification is v over u for a normal object distance and 1.0 otherwise. -/
def calculateThinLensImage (u_m h_obj_m P_D : ℚ) : LensResult :=
  if |P_D| < 1/1000000000 then
    { v_m := some u_m, h_img_m := some h_obj_m, mag := some 1 }
  else
    let term_1_u : ℚ := if |u_m| > 1000000000 then 0 else 1/u_m
    let v : Option ℚ :=
      if |u_m| < 1/1000000000 then some 0
      else if |P_D - term_1_u| < 1/1000000000 then none
      else some (1/(P_D - term_1_u))
    let mag : Option ℚ :=
      if |u_m| < 1/1000000000 ∨ |u_m| > 1000000000 then some 1
      else match v with
        | some vv => some (vv / u_m)
        | none => none
    { v_m := v,
      h_img_m := match mag with
        | some m => some (h_obj_m * m)
        | none => none,
      mag := mag }

/-- Result record of calculateThinLensImage from
src/vision_project/vision_project/static/js/common.js (lines 90-97).  In
the zero-power branch the JS record has no mag field at all; that absent
field, as well as the Infinity values of the image-at-infinity branch, are
modelled as none. -/
structure CommonLensResult where
  v : Option ℚ
  h_img : Option ℚ
  mag : Option ℚ
  deriving Repr, DecidableEq

/-- Shallow embedding of the common.js calculateThinLensImage (lines
90-97), for finite input u.  Unlike the part_001 variant there is no
object-at-lens branch for the position, and the zero-power branch returns a
record without a magnification field. -/
def commonCalculateThinLensImage (u h P : ℚ) : CommonLensResult :=
  if |P| < 1/1000000000 then
    { v := some u, h_img := some h, mag := none }
  else
    let u_inv : ℚ := if |u| > 1000000000 then 0 else 1/u
    if |P - u_inv| < 1/1000000000 then
      { v := none, h_img := none, mag := none }
    else
      let v := 1/(P - u_inv)
      let mag : ℚ := if |u| < 1/1000000000 then 1 else v/u
      { v := some v, h_img := some (h * mag), mag := some mag }

/-- JS division 1/d with Infinity represented as none (used where the
source divides without guarding the denominator). -/
def jsInv (d : ℚ) : Option ℚ :=
  if d = 0 then none else some (1/d)

/-- Scene record produced by getSceneData in
src/vision_project/static/js/simulator_controls.js (lines 104-132).  The
final image position and height are none when the JS value is non-finite. -/
structure SceneV8 where
  objectX : ℚ
  objectH : ℚ
  glassesX : ℚ
  glassesP : ℚ
  eyeX : ℚ
  eyeP : ℚ
  finalImageX : Option ℚ
  finalImageH : Option ℚ
  deriving Repr, DecidableEq

/-- Shallow embedding of getSceneData (simulator_controls.js lines
104-132), the summed-power model: accommodation equals the object vergence,
the eye power is the emmetropic power plus the inherent error plus
accommodation, the total power is corrective plus eye, and the final image
is solved against the total power at a single plane.  lensDist is
OPTICAL_CONSTANTS.corrective_lens_to_eye_lens_distance_m; glassesMode is
true when config.lensMode is the glasses mode.  objectDistance is modelled
as a nonzero rational (the JS callers substitute a default for 0). -/
def getSceneData (lensDist pEmmetropic inherentError objectDistance : ℚ)
    (glassesMode : Bool) (glassesRx : ℚ) : SceneV8 :=
  let u_obj := objectDistance
  let h_obj : ℚ := 1/100
  let P_glasses := if glassesMode then glassesRx else 0
  let u_obj_inv : ℚ := if |u_obj| > 1000000000 then 0 else 1/u_obj
  let P_accom := u_obj_inv
  let P_eye_actual := (pEmmetropic + inherentError) + P_accom
  let P_total := P_glasses + P_eye_actual
  let v_final := jsInv (P_total - u_obj_inv)
  let m_final := v_final.map (fun v => v / u_obj)
  let h_final := m_final.map (fun m => h_obj * m)
  { objectX := -u_obj, objectH := h_obj,
    glassesX := -lensDist, glassesP := P_glasses,
    eyeX := 0, eyeP := P_eye_actual,
    finalImageX := v_final, finalImageH := h_final }

/-- Scene record produced by getSceneDataForGame in
src/vision_project/static/js/game_diagram.js (lines 8-35). -/
structure GameScene where
  objectX : ℚ
  objectH : ℚ
  glassesX : ℚ
  glassesP : ℚ
  eyeX : ℚ
  eyeP : ℚ
  finalImageX : Option ℚ
  finalImageH : Option ℚ
  retinaX : ℚ
  deriving Repr, DecidableEq

/-- Shallow embedding of getSceneDataForGame (game_diagram.js lines 8-35):
the same summed-power model with the patient error as the inherent error
and the test lens as the corrective lens; the object distance is the
game_object_distance_m constant, modelled nonzero. -/
def getSceneDataForGame (pEmmetropic gameObjectDistance lensDist dRetina
    patientError testLens : ℚ) : GameScene :=
  let u_obj := gameObjectDistance
  let h_obj : ℚ := 1/100
  let u_obj_inv : ℚ := 1/u_obj
  let P_accom := u_obj_inv
  let P_eye_actual := (pEmmetropic + patientError) + P_accom
  let P_total := testLens + P_eye_actual
  let v_final := jsInv (P_total - u_obj_inv)
  let m_final := v_final.map (fun v => v / u_obj)
  let h_final := m_final.map (fun m => h_obj * m)
  { objectX := -u_obj, objectH := h_obj,
    glassesX := -lensDist, glassesP := testLens,
    eyeX := 0, eyeP := P_eye_actual,
    finalImageX := v_final, finalImageH := h_final,
    retinaX := dRetina }

/-- Traced terminal height of one principal ray in drawRays
(simulator_controls.js lines 175-240) and drawGameRays (game_diagram.js
lines 51-101): straight propagation from the object plane to the glasses,
slope update s - y*P/PPM at the glasses, straight propagation to the eye,
slope update at the eye, straight propagation to the final image plane.
All coordinates are in the canvas frame of the source, world meters times
PPM, with the starting height y0 = -object.h * PPM as in the source. -/
def traceRayToImage (PPM y0 s0 obj_x glasses_x P_g eye_x P_e img_x : ℚ) : ℚ :=
  let y_at_glasses := y0 + s0 * (glasses_x - obj_x)
  let slope_after_glasses := s0 - y_at_glasses * P_g / PPM
  let y_at_eye := y_at_glasses + slope_after_glasses * (eye_x - glasses_x)
  let slope_after_eye := slope_after_glasses - y_at_eye * P_e / PPM
  y_at_eye + slope_after_eye * (img_x - eye_x)

/-- Focus-offset report computed alongside rendering: the three shapes of
the user-facing text (image at infinity, sharply focused, or blurred with
an absolute offset in millimeters and a flag for the image lying in front
of the retina). -/
inductive FocusReport where
  | atInfinity : FocusReport
  | sharp : FocusReport
  | blurred (absMM : ℚ) (inFront : Bool) : FocusReport
  deriving Repr, DecidableEq

/-- Shallow embedding of the info-text selection of drawSimulation in
simulator_controls.js (lines 297-306): default text is at-infinity; for a
finite final image x the blur is x minus the retina x, reported sharp when
its magnitude is below 0.0001 m and otherwise blurred with the magnitude in
millimeters, in front exactly when the blur is negative. -/
def drawSimulationInfo (finalImageX : Option ℚ) (retinaX : ℚ) : FocusReport :=
  match finalImageX with
  | none => .atInfinity
  | some x =>
    let blur := x - retinaX
    if |blur| < 1/10000 then .sharp
    else .blurred (|blur * 1000|) (blur < 0)

/-- Shallow embedding of the info-text selection of drawSimulation in
src/unnamed/part_001 (lines 397-410): at infinity when the final stage v is
Infinity; sharp when the distance from the retina is below 0.00005 m;
otherwise blurred with the magnitude in millimeters, in front exactly when
the distance is negative. -/
def part001Info (v_m : Option ℚ) (dRetinaFixed : ℚ) : FocusReport :=
  match v_m with
  | none => .atInfinity
  | some v =>
    let dist := v - dRetinaFixed
    if |dist| < 5/100000 then .sharp
    else .blurred (|dist * 1000|) (dist < 0)

/-- Shallow embedding of the info-text selection of drawGameScene in
game_diagram.js (lines 157-160), which is only computed from a finite final
image x: blurred text with the magnitude in millimeters is produced first
and overridden by the sharp text when the magnitude is below 0.0001 m. -/
def gameSceneInfo (finalImageX retinaX : ℚ) : FocusReport :=
  let blur := finalImageX - retinaX
  if |blur| < 1/10000 then .sharp
  else .blurred (|blur * 1000|) (blur < 0)

/-- Per-canvas view state: zoom factor and pan offsets in pixels. -/
structure View where
  zoom : ℚ
  panX : ℚ
  panY : ℚ
  deriving Repr, DecidableEq

/-- Shallow embedding of zoomDetail in simulator_controls.js (lines
309-321): the world point under the cursor is read off through the current
transform, the zoom is multiplied by the factor and clamped to [0.01,
1000], and the pan is recomputed so that world point stays under the
cursor, with the sign flip on the y axis. -/
def zoomDetail (v : View) (factor mouseX mouseY : ℚ) : View :=
  let worldX := (mouseX - v.panX) / v.zoom
  let worldY := (mouseY - v.panY) / (-v.zoom)
  let z1 := v.zoom * factor
  let z2 := max (1/100) (min z1 1000)
  { zoom := z2,
    panX := mouseX - worldX * z2,
    panY := mouseY - worldY * (-z2) }

/-- Shallow embedding of zoomDetailView in game_logic.js (lines 221-233):
identical to zoomDetail except that the multiplied zoom is not clamped. -/
def zoomDetailView (v : View) (factor mouseX mouseY : ℚ) : View :=
  let worldX := (mouseX - v.panX) / v.zoom
  let worldY := (mouseY - v.panY) / (-v.zoom)
  let z := v.zoom * factor
  { zoom := z,
    panX := mouseX - worldX * z,
    panY := mouseY - worldY * (-z) }

/-- State touched by the pan handlers of the detail canvases
(simulator_controls.js lines 325-340 and game_logic.js lines 238-255). -/
structure PanState where
  isPanning : Bool
  panX : ℚ
  panY : ℚ
  lastX : ℚ
  lastY : ℚ
  deriving Repr, DecidableEq

/-- Pointer events handled by the pan handlers. -/
inductive PanEvent where
  | press (x y : ℚ) : PanEvent
  | move (x y : ℚ) : PanEvent
  | release : PanEvent
  | leave : PanEvent
  deriving Repr, DecidableEq

/-- Shallow embedding of the four pan handlers: mousedown records the
pointer and raises the flag, mousemove adds the pointer delta to the pan
only while the flag is raised, and mouseup and mouseleave both clear the
flag. -/
def panStep (s : PanState) (e : PanEvent) : PanState :=
  match e with
  | .press x y => { s with isPanning := true, lastX := x, lastY := y }
  | .move x y =>
    if s.isPanning then
      { isPanning := true,
        panX := s.panX + (x - s.lastX), panY := s.panY + (y - s.lastY),
        lastX := x, lastY := y }
    else s
  | .release => { s with isPanning := false }
  | .leave => { s with isPanning := false }

/-- Folds a list of mousemove events into the pan state. -/
def applyMoves (s : PanState) (ms : List (ℚ × ℚ)) : PanState :=
  ms.foldl (fun t p => panStep t (.move p.1 p.2)) s

/-- JS expression parseFloat(v) || d of the current controls
(src/vision_project/static/js/simulator_controls.js lines 15-22): a NaN
parse (none) and a parse equal to 0 are both falsy and replaced by the
default; every other parsed value, negative ones included, passes through. -/
def parseOrDefault (parsed : Option ℚ) (d : ℚ) : ℚ :=
  match parsed with
  | none => d
  | some x => if x = 0 then d else x

/-- Object distance handed to drawSimulation by the current controls
(simulator_controls.js lines 15-22): parseFloat of the slider value with
default 1 through the falsy-or idiom, and no further clamping. -/
def v8ObjectDistance (parsed : Option ℚ) : ℚ :=
  parseOrDefault parsed 1

/-- parseFloatSafe from common.js (lines 3-6): the parsed value, or the
default when the parse is NaN. -/
def parseFloatSafe (parsed : Option ℚ) (d : ℚ) : ℚ :=
  parsed.getD d

/-- Object distance handed to drawSimulation by the legacy controls
(src/vision_project/static/css/static/js/simulator_controls.js lines
39-55): parseFloatSafe with default 1, then non-positive values are
silently replaced by 0.001. -/
def legacyObjectDistance (parsed : Option ℚ) : ℚ :=
  let v := parseFloatSafe parsed 1
  if v ≤ 0 then 1/1000 else v

/-- Final image world x of the legacy part_001 drawSimulation (lines
361-393) in prescription mode: corrective power is glassesRx plus shiftRx
and the corrective lens is always present, so the build is two-stage; the
corrective lens sits at world x = 0, the eye lens at eyeX, and the second
stage object distance is eyeX minus the intermediate image x.  When the
intermediate image is at infinity the code continues with an infinite
second-stage object distance, which yields vergence 0 and magnification 1
in calculateThinLensImage; that path is inlined here.  none is a
non-finite final position. -/
def part001PrescriptionFinalX (eyeX pEmm inherentError u hObj
    glassesRx shiftRx : ℚ) : Option ℚ :=
  match calculateThinLensImage u hObj (glassesRx + shiftRx) with
  | ⟨none, _, _⟩ =>
    if |pEmm + inherentError| < 1/1000000000 then none
    else some (eyeX + 1/(pEmm + inherentError))
  | ⟨some v1, h1f, _⟩ =>
    ((calculateThinLensImage (eyeX - v1) |(h1f.getD 0)| (pEmm + inherentError)).v_m).map
      (fun v2 => eyeX + v2)

/-- Final image world x of the legacy part_001 drawSimulation (lines
361-393) in uncorrected mode: a single stage from the object, at world x
= -u, to the eye lens at eyeX, so the object distance is eyeX + u. -/
def part001UncorrectedFinalX (eyeX pEmm inherentError u hObj : ℚ) : Option ℚ :=
  ((calculateThinLensImage (eyeX + u) hObj (pEmm + inherentError)).v_m).map
    (fun v => eyeX + v)

/-- Traced terminal heights of the three principal rays of drawRays
(simulator_controls.js lines 189-231) at a given final image x (in canvas
units, world meters times PPM): the parallel ray, the ray aimed at the
center of the glasses, and the third arbitrary ray with slope obj_h times
0.5 over obj_x, each propagated by traceRayToImage.  The source computes
the same final_y_endpoint but then draws the last segment to the computed
final_img_h instead. -/
def drawRaysTracedHeights (PPM : ℚ) (s : SceneV8) (img_x : ℚ) : List ℚ :=
  let obj_x := s.objectX * PPM
  let obj_h := -s.objectH * PPM
  let glasses_x := s.glassesX * PPM
  let eye_x := s.eyeX * PPM
  let initialRays : List (ℚ × ℚ) :=
    [(obj_h, 0),
     (obj_h, obj_h / (obj_x - glasses_x)),
     (obj_h, obj_h * (1/2) / obj_x)]
  initialRays.map (fun r =>
    traceRayToImage PPM r.1 r.2 obj_x glasses_x s.glassesP eye_x s.eyeP img_x)

theorem applyMoves_of_not_panning (t : PanState) (ms : List (ℚ × ℚ))
    (h : t.isPanning = false) : applyMoves t ms = t := by
  induction ms generalizing t with
  | nil => rfl
  | cons m tl ih =>
    show applyMoves (panStep t (.move m.1 m.2)) tl = t
    rw [show panStep t (.move m.1 m.2) = t from by simp [panStep, h]]
    exact ih t h

/-- C1: for a finite object distance of magnitude between 1e-9 and 1e9 and
a power of magnitude above 1e-6, whenever either thin-lens solver returns a
finite image position v, the vergence identity powerD = 1/u + 1/v holds
within 1e-6 (in the exact rational model it holds exactly). -/
theorem thinLens_vergence_identity (u h P v1 v2 : ℚ)
    (hu9 : |u| ≤ 1000000000) (hu0 : 1/1000000000 ≤ |u|)
    (hP : 1/1000000 < |P|)
    (h1 : (calculateThinLensImage u h P).v_m = some v1)
    (h2 : (commonCalculateThinLensImage u h P).v = some v2) :
    |P - (1/u + 1/v1)| < 1/1000000 ∧ |P - (1/u + 1/v2)| < 1/1000000 := by
  have hPne : ¬ |P| < 1/1000000000 := by
    have hq : (1:ℚ)/1000000000 < 1/1000000 := by norm_num
    push_neg
    linarith
  have hu9n : ¬ |u| > 1000000000 := not_lt.mpr hu9
  have hu0n : ¬ |u| < 1/1000000000 := not_lt.mpr hu0
  by_cases hinf : |P - 1/u| < 1/1000000000
  · exfalso
    have : (calculateThinLensImage u h P).v_m = none := by
      unfold calculateThinLensImage
      rw [if_neg hPne]
      simp only [if_neg hu9n, if_neg hu0n, if_pos hinf]
    rw [this] at h1
    exact Option.noConfusion h1
  · have hv1 : (calculateThinLensImage u h P).v_m = some (1/(P - 1/u)) := by
      unfold calculateThinLensImage
      rw [if_neg hPne]
      simp only [if_neg hu9n, if_neg hu0n, if_neg hinf]
    have hv2 : (commonCalculateThinLensImage u h P).v = some (1/(P - 1/u)) := by
      unfold commonCalculateThinLensImage
      rw [if_neg hPne]
      simp only [if_neg hu9n, if_neg hinf]
    have e1 : v1 = 1/(P - 1/u) := (Option.some.inj (hv1.symm.trans h1)).symm
    have e2 : v2 = 1/(P - 1/u) := (Option.some.inj (hv2.symm.trans h2)).symm
    have hzero : P - (1/u + 1/(1/(P - 1/u))) = 0 := by
      rw [one_div_one_div]
      ring
    constructor
    · rw [e1, hzero]
      norm_num
    · rw [e2, hzero]
      norm_num

theorem thinLens_vergence_identity_witness :
    |(1:ℚ)| ≤ 1000000000 ∧ (1:ℚ)/1000000000 ≤ |(1:ℚ)| ∧
    (1:ℚ)/1000000 < |(2:ℚ)| ∧
    (calculateThinLensImage 1 1 2).v_m = some 1 ∧
    (commonCalculateThinLensImage 1 1 2).v = some 1 ∧
    (|(2:ℚ) - (1/1 + 1/1)| < 1/1000000 ∧ |(2:ℚ) - (1/1 + 1/1)| < 1/1000000) :=
  ⟨by norm_num, by norm_num, by norm_num,
   by norm_num [calculateThinLensImage],
   by norm_num [commonCalculateThinLensImage],
   thinLens_vergence_identity 1 1 2 1 1 (by norm_num) (by norm_num)
     (by norm_num) (by norm_num [calculateThinLensImage])
     (by norm_num [commonCalculateThinLensImage])⟩

/-- C2 (amended): for any power of magnitude below 1e-9 both solvers pass
the object through, returning image position d and height h; the part_001
solver additionally returns magnification 1.0, while the common.js solver
returns a record with no magnification field in this branch. -/
theorem thinLens_zero_power (d h P : ℚ) (hP : |P| < 1/1000000000) :
    calculateThinLensImage d h P = ⟨some d, some h, some 1⟩ ∧
    commonCalculateThinLensImage d h P = ⟨some d, some h, none⟩ := by
  constructor
  · unfold calculateThinLensImage
    rw [if_pos hP]
  · unfold commonCalculateThinLensImage
    rw [if_pos hP]

theorem thinLens_zero_power_witness :
    |(0:ℚ)| < 1/1000000000 ∧
    (calculateThinLensImage 2 3 0 = ⟨some 2, some 3, some 1⟩ ∧
     commonCalculateThinLensImage 2 3 0 = ⟨some 2, some 3, none⟩) :=
  ⟨by norm_num, thinLens_zero_power 2 3 0 (by norm_num)⟩

/-- C2 counterexample: the common.js solver at (1, 1, 0) does not return
magnification 1.0 (the zero-power branch of its record carries no
magnification field at all), refuting the claim as stated for that cited
implementation. -/
theorem common_zero_power_mag_missing :
    (commonCalculateThinLensImage 1 1 0).mag ≠ some 1 := by
  have h : (commonCalculateThinLensImage 1 1 0).mag = none := by
    norm_num [commonCalculateThinLensImage]
  rw [h]
  exact fun hc => Option.noConfusion hc

/-- C3 (amended): the focus-offset reports follow the claimed shape, but
the sharp threshold is 0.1 mm in the current simulator and in the game
diagram and 0.05 mm only in the legacy part_001 renderer; in all variants
the blurred report carries the offset magnitude in millimeters with the
in-front flag exactly when the image lies before the retina, and the two
simulator variants report at-infinity for a non-finite final image. -/
theorem focus_report_thresholds (x r : ℚ) :
    drawSimulationInfo none r = .atInfinity ∧
    drawSimulationInfo (some x) r =
      (if |x - r| * 1000 < 1/10 then .sharp
       else .blurred (|x - r| * 1000) (decide (x < r))) ∧
    part001Info none r = .atInfinity ∧
    part001Info (some x) r =
      (if |x - r| * 1000 < 5/100 then .sharp
       else .blurred (|x - r| * 1000) (decide (x < r))) ∧
    gameSceneInfo x r =
      (if |x - r| * 1000 < 1/10 then .sharp
       else .blurred (|x - r| * 1000) (decide (x < r))) := by
  have habs : |(x - r) * 1000| = |x - r| * 1000 := by
    rw [abs_mul]
    norm_num
  have hbool : decide (x - r < 0) = decide (x < r) :=
    decide_eq_decide.mpr sub_neg
  refine ⟨rfl, ?_, rfl, ?_, ?_⟩
  · simp only [drawSimulationInfo]
    split_ifs with h1 h2 h3
    · rfl
    · exact absurd (by linarith : |x - r| * 1000 < 1/10) h2
    · exact absurd (by linarith : |x - r| < 1/10000) h1
    · rw [habs, hbool]
  · simp only [part001Info]
    split_ifs with h1 h2 h3
    · rfl
    · exact absurd (by linarith : |x - r| * 1000 < 5/100) h2
    · exact absurd (by linarith : |x - r| < 5/100000) h1
    · rw [habs, hbool]
  · simp only [gameSceneInfo]
    split_ifs with h1 h2 h3
    · rfl
    · exact absurd (by linarith : |x - r| * 1000 < 1/10) h2
    · exact absurd (by linarith : |x - r| < 1/10000) h1
    · rw [habs, hbool]

/-- C3 counterexample: with the final image 0.00007 m past the retina the
current simulator reports sharply focused even though the offset, 0.07 mm,
is not below the claimed 0.05 mm threshold, so the claimed exactly-when
characterization fails. -/
theorem focus_report_not_005mm :
    drawSimulationInfo (some (7/100000)) 0 = .sharp ∧
    ¬ |(7:ℚ)/100000 - 0| * 1000 < 5/100 := by
  have habs : |(7:ℚ)/100000 - 0| = 7/100000 := by
    rw [sub_zero]
    exact abs_of_pos (by norm_num)
  constructor
  · simp only [drawSimulationInfo]
    rw [if_pos (by rw [habs]; norm_num)]
  · rw [habs]
    norm_num

/-- C4: zoom-at-cursor is a fixed point at the cursor for both the
simulator detail canvas (with zoom clamping) and the game detail canvas
(without): after the update, panX plus the cursor world x times the new
zoom is the cursor x, and the y-axis analogue holds with its sign flip. -/
theorem zoom_at_cursor_fixed_point (v : View) (factor mouseX mouseY : ℚ)
    (hz : 0 < v.zoom) :
    ((zoomDetail v factor mouseX mouseY).panX
        + (mouseX - v.panX) / v.zoom * (zoomDetail v factor mouseX mouseY).zoom
        = mouseX ∧
      (zoomDetail v factor mouseX mouseY).panY
        + (mouseY - v.panY) / (-v.zoom) * (-(zoomDetail v factor mouseX mouseY).zoom)
        = mouseY) ∧
    ((zoomDetailView v factor mouseX mouseY).panX
        + (mouseX - v.panX) / v.zoom * (zoomDetailView v factor mouseX mouseY).zoom
        = mouseX ∧
      (zoomDetailView v factor mouseX mouseY).panY
        + (mouseY - v.panY) / (-v.zoom) * (-(zoomDetailView v factor mouseX mouseY).zoom)
        = mouseY) := by
  refine ⟨⟨?_, ?_⟩, ⟨?_, ?_⟩⟩ <;>
    · simp only [zoomDetail, zoomDetailView]
      ring

theorem zoom_at_cursor_fixed_point_witness :
    (0:ℚ) < 2 ∧
    (((zoomDetail ⟨2, 3, 4⟩ 5 6 7).panX
        + (6 - 3) / 2 * (zoomDetail ⟨2, 3, 4⟩ 5 6 7).zoom = 6 ∧
      (zoomDetail ⟨2, 3, 4⟩ 5 6 7).panY
        + (7 - 4) / (-2) * (-(zoomDetail ⟨2, 3, 4⟩ 5 6 7).zoom) = 7) ∧
     ((zoomDetailView ⟨2, 3, 4⟩ 5 6 7).panX
        + (6 - 3) / 2 * (zoomDetailView ⟨2, 3, 4⟩ 5 6 7).zoom = 6 ∧
      (zoomDetailView ⟨2, 3, 4⟩ 5 6 7).panY
        + (7 - 4) / (-2) * (-(zoomDetailView ⟨2, 3, 4⟩ 5 6 7).zoom) = 7)) :=
  ⟨by norm_num, zoom_at_cursor_fixed_point ⟨2, 3, 4⟩ 5 6 7 (by norm_num)⟩

/-- C5 (amended): in the current summed-power scene builder, glasses mode
with corrective power 0 produces a Scene identical to uncorrected mode for
every configuration; in the legacy part_001 two-stage renderer the claimed
equivalence for prescription mode with prescriptionD and shift both 0 fails,
because that mode always takes the two-stage path and its zero-power first
stage relocates the intermediate image. -/
theorem corrective_zero_equiv_uncorrected (lensDist pe ie u rx : ℚ) :
    getSceneData lensDist pe ie u true 0 = getSceneData lensDist pe ie u false rx := by
  simp [getSceneData]

/-- C5 counterexample: with eye lens at 0.02 m, emmetropic power 60 D, no
inherent error, object at 1 m and object height 0.02 m, the part_001
prescription mode with glassesRx = 0 and shiftRx = 0 puts the final image
at a different position than uncorrected mode. -/
theorem part001_prescription_zero_differs :
    part001PrescriptionFinalX (1/50) 60 0 1 (1/50) 0 0
      ≠ part001UncorrectedFinalX (1/50) 60 0 1 (1/50) := by
  have habs : |((1:ℚ)/50)| = 1/50 := abs_of_pos (by norm_num)
  have e1 : calculateThinLensImage 1 (1/50) ((0:ℚ) + 0)
      = ⟨some 1, some (1/50), some 1⟩ := by
    norm_num [calculateThinLensImage]
  have e2 : calculateThinLensImage (1/50 - 1) (1/50) ((60:ℚ) + 0)
      = ⟨some (49/2990), some (-1/2990), some (-5/299)⟩ := by
    norm_num [calculateThinLensImage, abs_of_pos]
  have e3 : calculateThinLensImage (1/50 + 1) (1/50) ((60:ℚ) + 0)
      = ⟨some (51/3010), some (1/3010), some (5/301)⟩ := by
    norm_num [calculateThinLensImage, abs_of_pos]
  have h1 : part001PrescriptionFinalX (1/50) 60 0 1 (1/50) 0 0
      = some (1/50 + 49/2990) := by
    delta part001PrescriptionFinalX
    rw [e1]
    simp only [Option.getD_some]
    rw [habs, e2]
    rfl
  have h2 : part001UncorrectedFinalX (1/50) 60 0 1 (1/50)
      = some (1/50 + 51/3010) := by
    delta part001UncorrectedFinalX
    rw [e3]
    rfl
  rw [h1, h2]
  intro hc
  have hval := Option.some.inj hc
  norm_num at hval

/-- C6 (code bug): at the scene built by getSceneData for lens separation
0.02 m, emmetropic power 2 D, inherent error 0, object distance 1 m in
uncorrected mode, the final image is at 0.5 m with computed height 0.005 m,
and with PPM = 8000 all three principal rays of drawRays terminate at
canvas height +40 at the image plane, while the computed image height drawn
there is -0.005 * 8000 = -40: the traced rays converge at the mirror image
of the computed height, 0.01 m away, far beyond the claimed 1e-6 world-unit
tolerance (the source discards the traced endpoint and force-draws the last
segment to the computed height). -/
theorem rays_mirror_computed_height :
    (getSceneData (1/50) 2 0 1 false 0).finalImageX = some (1/2) ∧
    (getSceneData (1/50) 2 0 1 false 0).finalImageH = some (1/200) ∧
    drawRaysTracedHeights 8000 (getSceneData (1/50) 2 0 1 false 0) ((1/2) * 8000)
      = [40, 40, 40] ∧
    (-(1/200) * 8000 : ℚ) = -40 ∧
    |(40:ℚ) - (-40)| / 8000 > 1/1000000 := by
  refine ⟨?_, ?_, ?_, by norm_num, by norm_num⟩
  · norm_num [getSceneData, jsInv]
  · norm_num [getSceneData, jsInv]
  · norm_num [drawRaysTracedHeights, traceRayToImage, getSceneData, jsInv]

/-- C7 (amended): the legacy controls silently replace any non-positive
parsed object distance by 0.001 m before calling the solver, so the value
passed on is always strictly positive; the current controls instead
substitute 1 for a NaN or zero parse through the falsy-or idiom and pass
negative values through unclamped. -/
theorem legacy_object_distance_positive (parsed : Option ℚ) :
    0 < legacyObjectDistance parsed := by
  unfold legacyObjectDistance
  simp only []
  split_ifs with h
  · norm_num
  · push_neg at h
    exact h

/-- C7 counterexample: a user-supplied object distance parsing to -1
reaches drawSimulation as -1 in the current controls, so the value passed
to the solve calls is not clamped to a strictly positive minimum. -/
theorem v8_object_distance_negative_passthrough :
    v8ObjectDistance (some (-1)) = -1 ∧ ¬ 0 < v8ObjectDistance (some (-1)) := by
  constructor
  · norm_num [v8ObjectDistance, parseOrDefault]
  · norm_num [v8ObjectDistance, parseOrDefault]

/-- C8 (amended): the simulator detail-canvas zoom interaction clamps the
multiplied zoom into the configured [0.01, 1000] bounds on every
invocation, for every prior view state and factor; the claimed invariant
does not extend to the game detail view, whose zoom interaction applies no
clamp. -/
theorem zoomDetail_zoom_bounded (v : View) (factor mouseX mouseY : ℚ) :
    1/100 ≤ (zoomDetail v factor mouseX mouseY).zoom ∧
    (zoomDetail v factor mouseX mouseY).zoom ≤ 1000 := by
  constructor
  · exact le_max_left _ _
  · exact max_le (by norm_num) (min_le_right _ _)

/-- C8 counterexample: starting from the game detail view initial zoom of
200, five zoom-in interactions with the button factor 1.5 leave the zoom at
1518.75, above the configured upper bound of 1000, because zoomDetailView
never clamps. -/
theorem game_zoom_unbounded :
    1000 < ((fun w => zoomDetailView w (3/2) 400 300)^[5]
      (⟨200, 400, 300⟩ : View)).zoom := by
  norm_num [Function.iterate_succ, Function.iterate_zero, zoomDetailView]

/-- C9: the panning flag is preserved by move events, set by press events,
and cleared by release and leave events; consequently after a pointer-leave
event any sequence of move events leaves panX and panY unchanged, so no
stuck-panning state is reachable before the next press. -/
theorem pan_leave_no_stuck (s : PanState) (x y : ℚ) (ms : List (ℚ × ℚ)) :
    (panStep s (.move x y)).isPanning = s.isPanning ∧
    (panStep s (.press x y)).isPanning = true ∧
    (panStep s .release).isPanning = false ∧
    (panStep s .leave).isPanning = false ∧
    (applyMoves (panStep s .leave) ms).panX = s.panX ∧
    (applyMoves (panStep s .leave) ms).panY = s.panY := by
  have hleave : (panStep s .leave).isPanning = false := rfl
  have hfix : applyMoves (panStep s .leave) ms = panStep s .leave :=
    applyMoves_of_not_panning _ ms hleave
  refine ⟨?_, rfl, rfl, rfl, ?_, ?_⟩
  · cases h : s.isPanning <;> simp [panStep, h]
  · rw [hfix]
    rfl
  · rw [hfix]
    rfl

/-- C10: in the summed-power scene builders of the current simulator and of
the game diagram, the final image position and height do not depend on the
corrective-lens-to-eye-lens separation: two runs differing only in that
constant produce the same finalImage fields (the separation moves only the
drawn glasses x-position). -/
theorem final_image_independent_of_lens_distance
    (d1 d2 pe ie u rx god perr tl dr : ℚ) (mode : Bool) :
    (getSceneData d1 pe ie u mode rx).finalImageX
      = (getSceneData d2 pe ie u mode rx).finalImageX ∧
    (getSceneData d1 pe ie u mode rx).finalImageH
      = (getSceneData d2 pe ie u mode rx).finalImageH ∧
    (getSceneDataForGame pe god d1 dr perr tl).finalImageX
      = (getSceneDataForGame pe god d2 dr perr tl).finalImageX ∧
    (getSceneDataForGame pe god d1 dr perr tl).finalImageH
      = (getSceneDataForGame pe god d2 dr perr tl).finalImageH :=
  ⟨rfl, rfl, rfl, rfl⟩

end VisionSim
